import Mathlib

/-!
Verification development for the OculusRoomReallyTiny (SDK 0.7) sample.

The repository holds two nearly identical revisions of the same file
`Win32_RoomTiny_Main.cpp` (a windowing / Direct3D11 / Oculus SDK demo).
We shallowly embed the computational content of both revisions:

* `OVR_SUCCESS`, `ovrSuccess`, `ovrError_DisplayLost` — the Oculus SDK result
  conventions used by the sample (an `ovrResult` is a 32-bit integer, success
  means nonnegative).
* `SwapTextureSet` / `AdvanceToNextTexture` — the swap-texture ring.
* `TextureFill` / `texPixel` / `fillLoop` — the procedural texture fill of the
  first revision, and `TextureFill2` / `texPixel2` / `fillLoop2` for the
  second revision.
* `TriangleSet` / `AddBox` — box-mesh construction (vertex payloads are
  abstracted to a type parameter; the index arithmetic, including the
  `static_cast<short>` narrowing, is kept exact).
* `modifyColor` — the per-vertex shading function (float arithmetic is
  abstracted by rationals; the clamping and byte packing are kept exact).
* `MainLoop1` / `MainLoop2` — the per-frame render loop of each revision as a
  function over an input trace, producing an event list and an outcome.
* `runOuter` — the outer retry loop (`DirectX11::Run` / `Window::Run`).
-/

namespace OculusRoomTiny

/-- Oculus SDK: an `ovrResult` is a signed 32-bit integer. -/
abbrev OvrResult := Int

/-- Oculus SDK: `OVR_SUCCESS(r)` holds for nonnegative results. -/
def OVR_SUCCESS (r : OvrResult) : Bool := 0 ≤ r

/-- Oculus SDK: the plain success code. -/
def ovrSuccess : OvrResult := 0

/-- Oculus SDK: the `NotVisible` success code. -/
def ovrSuccess_NotVisible : OvrResult := 1000

/-- Oculus SDK: the `DisplayLost` error code. -/
def ovrError_DisplayLost : OvrResult := -6000

/-! ## Swap texture set (`OculusTexture`)

The sample wraps an `ovrSwapTextureSet`, which carries a `CurrentIndex` and a
`TextureCount`.  The constructor validates `TextureCount == std::size(TexRtv)`,
i.e. `TextureCount == 2`. -/

/-- The observable state of an `ovrSwapTextureSet`: its `CurrentIndex` and
`TextureCount` fields (both nonnegative ints in the SDK). -/
structure SwapTextureSet where
  CurrentIndex : Nat
  TextureCount : Nat
  deriving DecidableEq

/-- `OculusTexture::AdvanceToNextTexture`, from
`TextureSet->CurrentIndex = (TextureSet->CurrentIndex + 1) % TextureSet->TextureCount`:
returns the value of the assignment together with the updated state. -/
def AdvanceToNextTexture (ts : SwapTextureSet) : Nat × SwapTextureSet :=
  let i := (ts.CurrentIndex + 1) % ts.TextureCount
  (i, { ts with CurrentIndex := i })

/-- `n` successive `AdvanceToNextTexture` calls on a swap texture set. -/
def advanceIter : Nat → SwapTextureSet → SwapTextureSet
  | 0, ts => ts
  | n + 1, ts => advanceIter n (AdvanceToNextTexture ts).2

/-! ## Procedural texture fill (`createTexture`), first revision -/

/-- The `TextureFill` enum of the first revision. -/
inductive TextureFill where
  | AUTO_WHITE
  | AUTO_WALL
  | AUTO_FLOOR
  | AUTO_CEILING
  | AUTO_GRID
  | AUTO_GRADE_256
  deriving DecidableEq

/-- The pixel value the first revision's fill loop assigns to `pix[j*256+i]`
(`i` is the column, `j` the row; `SizeW = SizeH = 256`).  In the `AUTO_WALL`
case, the C++ subexpression `((i / 4 & 31) == 0)` is a `bool` promoted to
`int` before the `^`, which we render as an `if _ then 1 else 0`. -/
def texPixel (texFill : TextureFill) (i j : Nat) : Nat :=
  match texFill with
  | .AUTO_WALL =>
      if ((j / 4) &&& 15) = 0 ∨
         (((i / 4) &&& 15) = 0 ∧
           ((if ((i / 4) &&& 31) = 0 then 1 else 0) ^^^ (((j / 4) >>> 4) &&& 1)) = 0)
      then 0xff3c3c3c else 0xffb4b4b4
  | .AUTO_FLOOR =>
      if (((i >>> 7) ^^^ (j >>> 7)) &&& 1) ≠ 0 then 0xffb4b4b4 else 0xff505050
  | .AUTO_CEILING =>
      if i / 4 = 0 ∨ j / 4 = 0 then 0xff505050 else 0xffb4b4b4
  | .AUTO_WHITE => 0xffffffff
  | .AUTO_GRADE_256 => 0xff000000 + i * 0x010101
  | .AUTO_GRID =>
      if i < 4 ∨ i > 256 - 5 ∨ j < 4 ∨ j > 256 - 5 then 0xffffffff else 0xff000000

/-- The sequence of writes `(index, value)` the fill loop performs on `pix`:
the outer loop runs `j` over the rows, the inner loop `i` over the columns,
and each iteration assigns `pix[j * SizeW + i]`. -/
def fillWrites (texFill : TextureFill) : List (Nat × Nat) :=
  ((List.range 256).map fun j =>
    (List.range 256).map fun i => (j * 256 + i, texPixel texFill i j)).flatten

/-- Applying a sequence of `(index, value)` writes to a buffer, in order. -/
def writeSeq (ps : List (Nat × Nat)) (a : List Nat) : List Nat :=
  ps.foldl (fun acc p => acc.set p.1 p.2) a

/-- The contents of `pix` after the first revision's fill loop; the
`std::vector<DWORD> pix(SizeW * SizeH)` starts out zero-initialized. -/
def fillLoop (texFill : TextureFill) : List Nat :=
  writeSeq (fillWrites texFill) (List.replicate (256 * 256) 0)

/-! ## Procedural texture fill (`createTexture`), second revision -/

/-- The `TextureFill` enum of the second revision (only four fills). -/
inductive TextureFill2 where
  | AUTO_WHITE
  | AUTO_WALL
  | AUTO_FLOOR
  | AUTO_CEILING
  deriving DecidableEq

/-- The pixel value the second revision's fill loop assigns to `pix[y*256+x]`
(`x` the column, `y` the row; `w = h = 256`). -/
def texPixel2 (texFill : TextureFill2) (x y : Nat) : Nat :=
  match texFill with
  | .AUTO_WALL =>
      if ((y / 4) &&& 15) = 0 ∨
         (((x / 4) &&& 15) = 0 ∧
           ((if ((x / 4) &&& 31) = 0 then 1 else 0) ^^^ (((y / 4) >>> 4) &&& 1)) = 0)
      then 0xff3c3c3c else 0xffb4b4b4
  | .AUTO_FLOOR =>
      if (((x >>> 7) ^^^ (y >>> 7)) &&& 1) ≠ 0 then 0xffb4b4b4 else 0xff505050
  | .AUTO_CEILING =>
      if x / 4 = 0 ∨ y / 4 = 0 then 0xff505050 else 0xffb4b4b4
  | .AUTO_WHITE => 0xffffffff

/-- The write sequence of the second revision's fill loop. -/
def fillWrites2 (texFill : TextureFill2) : List (Nat × Nat) :=
  ((List.range 256).map fun y =>
    (List.range 256).map fun x => (y * 256 + x, texPixel2 texFill x y)).flatten

/-- The contents of `pix` after the second revision's fill loop. -/
def fillLoop2 (texFill : TextureFill2) : List Nat :=
  writeSeq (fillWrites2 texFill) (List.replicate (256 * 256) 0)

/-! ## Box-mesh construction (`TriangleSet::AddBox`)

The vertex payload (a float position, a packed color, and two float texture
coordinates) is abstracted to a type parameter `V`: `AddBox` receives the four
corner vertices of each of its six quads as data.  The index bookkeeping —
`Indices.push_back(static_cast<short>(size(Vertices)))` followed by
`Vertices.push_back(v)` — is kept exact, including the narrowing conversion
of the vertex count to a signed 16-bit `short`. -/

/-- Two's-complement narrowing of a nonnegative integer to a signed 16-bit
value, as performed by `static_cast<short>` on the vertex count. -/
def toInt16 (n : Nat) : Int := (((n + 2 ^ 15) % 2 ^ 16 : Nat) : Int) - 2 ^ 15

/-- The `TriangleSet` aggregate: a vertex array and a `short` index array. -/
structure TriangleSet (V : Type) where
  Vertices : List V
  Indices : List Int

/-- The empty `TriangleSet` (both `std::vector`s start out empty). -/
def emptyTriangleSet (V : Type) : TriangleSet V := ⟨[], []⟩

/-- `AddTriangle`: for each vertex in the initializer list, push the current
vertex count (narrowed to `short`) onto `Indices`, then push the vertex. -/
def addTriangle {V : Type} (ts : TriangleSet V) (vs : List V) : TriangleSet V :=
  vs.foldl
    (fun acc v =>
      { Indices := acc.Indices ++ [toInt16 acc.Vertices.length],
        Vertices := acc.Vertices ++ [v] })
    ts

/-- `AddQuad`: two triangles, `(v0, v1, v2)` and `(v3, v2, v1)`. -/
def addQuad {V : Type} (ts : TriangleSet V) (v0 v1 v2 v3 : V) : TriangleSet V :=
  addTriangle (addTriangle ts [v0, v1, v2]) [v3, v2, v1]

/-- `AddQuad` applied to a quadruple of corner vertices. -/
def addQuadP {V : Type} (ts : TriangleSet V) (q : V × V × V × V) : TriangleSet V :=
  addQuad ts q.1 q.2.1 q.2.2.1 q.2.2.2

/-- `TriangleSet::AddBox`: six `AddQuad` calls, one per box face.  The corner
vertices of each face (whose positions and colors the C++ code computes with
float arithmetic and `ModifyColor`) are taken as parameters. -/
def AddBox {V : Type} (ts : TriangleSet V) (q1 q2 q3 q4 q5 q6 : V × V × V × V) :
    TriangleSet V :=
  addQuadP (addQuadP (addQuadP (addQuadP (addQuadP (addQuadP ts q1) q2) q3) q4) q5) q6

/-- A `TriangleSet` invariant: the index array is the narrowed enumeration of
the vertex positions. -/
def indicesEnumerate {V : Type} (ts : TriangleSet V) : Prop :=
  ts.Indices = (List.range ts.Vertices.length).map toInt16

/-- One `AddBox` call with fixed unit payloads, used to build concrete
instances of arbitrarily many `AddBox` calls. -/
def addBoxUnit (ts : TriangleSet Unit) : TriangleSet Unit :=
  AddBox ts ((), (), (), ()) ((), (), (), ()) ((), (), (), ())
    ((), (), (), ()) ((), (), (), ()) ((), (), (), ())

/-- The `TriangleSet` obtained by `n` successive `AddBox` calls starting from
the empty set. -/
def addBoxIter : Nat → TriangleSet Unit
  | 0 => emptyTriangleSet Unit
  | n + 1 => addBoxUnit (addBoxIter n)

/-- One `AddBox` call's worth of quad data: the four corner vertices of each
of the six faces. -/
def BoxQuads (V : Type) : Type :=
  (V × V × V × V) × (V × V × V × V) × (V × V × V × V) ×
    (V × V × V × V) × (V × V × V × V) × (V × V × V × V)

/-- One `AddBox` call on packaged quad data. -/
def addBoxQ {V : Type} (ts : TriangleSet V) (q : BoxQuads V) : TriangleSet V :=
  AddBox ts q.1 q.2.1 q.2.2.1 q.2.2.2.1 q.2.2.2.2.1 q.2.2.2.2.2

/-- A `TriangleSet` built by a sequence of `AddBox` calls starting from the
empty set. -/
def buildBoxes {V : Type} (qs : List (BoxQuads V)) : TriangleSet V :=
  qs.foldl addBoxQ (emptyTriangleSet V)

/-! ## Per-vertex shading (`ModifyColor` inside `AddBox`)

The C++ computes, in `float` arithmetic,
`chan * (bri + 192.0f * (0.65f + 8 / dist1 + 1 / dist2 + 4 / dist3)) / 255.0f`
for each of the three color channels, clamps the result at 255, truncates to
`DWORD`, and repacks the bytes.  We abstract the float arithmetic by exact
rational arithmetic (`0.65f` becomes `13/20`; the three distances, which are
nonnegative vector lengths, become nonnegative rational parameters); the
channel extraction, clamping, truncation, and byte packing are kept exact. -/

/-- The brightness scale factor `bri + 192.0f * (0.65f + 8/dist1 + 1/dist2 +
4/dist3)` with `bri = rand() % 160`. -/
def shadeScale (bri : Nat) (dist1 dist2 dist3 : ℚ) : ℚ :=
  (bri : ℚ) + 192 * (13 / 20 + 8 / dist1 + 1 / dist2 + 4 / dist3)

/-- One channel value before clamping: `((c >> sh) & 0xff) * scale / 255.0f`. -/
def chanVal (c : Nat) (sh : Nat) (scale : ℚ) : ℚ :=
  (((c >>> sh) &&& 0xff : Nat) : ℚ) * scale / 255

/-- One clamped channel: `X > 255 ? 255 : (DWORD)X` (the cast truncates). -/
def clampedChan (c : Nat) (sh : Nat) (scale : ℚ) : Nat :=
  if 255 < chanVal c sh scale then 255 else ⌊chanVal c sh scale⌋₊

/-- `ModifyColor`: keep the alpha byte of `c` and repack the three clamped,
shaded channels. -/
def modifyColor (c : Nat) (bri : Nat) (dist1 dist2 dist3 : ℚ) : Nat :=
  let scale := shadeScale bri dist1 dist2 dist3
  (c &&& 0xff000000) + (clampedChan c 16 scale <<< 16) +
    (clampedChan c 8 scale <<< 8) + clampedChan c 0 scale

/-! ## Scene state across main-loop iterations

Each main-loop iteration mutates the scene in exactly one place: the
"Animate the cube" lambda assigns `roomScene.Models[0]->Pos`.  All other
accesses to the models (`Scene::Render`, `Model::Render`) are `const` reads.
We model a scene as the list of its models' mutable fields (`Pos`, `Rot`);
positions and rotations are abstracted to type parameters, and the cube
position computed from the cube clock at tick `n` is an arbitrary function of
`n`. -/

/-- The mutable pose fields of a `Model` (its GPU resource handles are set in
the constructor and never reassigned). -/
structure ModelPose (P R : Type) where
  Pos : P
  Rot : R

/-- The "Animate the cube" lambda: assign `Models[0]->Pos` (the sample's
scene always holds seven models, so the list is never empty). -/
def animateCubePos {P R : Type} (models : List (ModelPose P R)) (p : P) :
    List (ModelPose P R) :=
  match models with
  | [] => []
  | m :: rest => { m with Pos := p } :: rest

/-- The scene's models after `n` main-loop iterations: iteration `k` sets the
cube position to `cubePos k` and modifies nothing else. -/
def sceneAfter {P R : Type} (models : List (ModelPose P R)) (cubePos : Nat → P) :
    Nat → List (ModelPose P R)
  | 0 => models
  | n + 1 => animateCubePos (sceneAfter models cubePos n) (cubePos n)

/-! ## The per-frame render loop (`MainLoop`), both revisions

`MainLoop` is embedded as a function of an input trace: the result of
`ovr_Create`, the device/tracking/swap-set/mirror creation results, and one
`FrameEnv` per executed loop iteration (the value `HandleMessages` returned
and the `ovr_SubmitFrame` result).  It produces the list of observable
render-loop events together with an outcome. -/

/-- Per-iteration inputs: what `HandleMessages` returned at the top of the
iteration and what `ovr_SubmitFrame` returned in it. -/
structure FrameEnv where
  running : Bool
  submitResult : OvrResult
  deriving DecidableEq

/-- Observable events of the render loop, in program order.  An
`eyeRenderPass eye texSet rtvIndex depth viewport` event is one per-eye pass:
it renders the room scene once into render target `TexRtv[rtvIndex]` of swap
texture set `texSet`, using depth buffer `depth` and viewport `viewport`
(indices into the two-element per-eye arrays). -/
inductive Ev where
  | pollInput
  | animateCube
  | computePoses
  | eyeRenderPass (eye texSet rtvIndex depth viewport : Nat)
  | submitFrame (result : OvrResult)
  | renderMirror
  deriving DecidableEq

/-- The loop-carried state: the `isVisible` flag and the two eye swap texture
sets. -/
structure LoopState where
  isVisible : Bool
  eyeTexL : SwapTextureSet
  eyeTexR : SwapTextureSet
  deriving DecidableEq

/-- The `for eye in ...` body: for the left then the right eye, advance that
eye's swap texture set, bind `EyeRenderTexture[eye].TexRtv[texIndex]` and
`EyeDepthBuffer[eye]`, set `eyeRenderViewport[eye]`, and render the scene. -/
def renderEyes (s : LoopState) : List Ev × LoopState :=
  let aL := AdvanceToNextTexture s.eyeTexL
  let aR := AdvanceToNextTexture s.eyeTexR
  ([Ev.eyeRenderPass 0 0 aL.1 0 0, Ev.eyeRenderPass 1 1 aR.1 1 1],
   { s with eyeTexL := aL.2, eyeTexR := aR.2 })

/-- One loop iteration up to and including the `ovr_SubmitFrame` call: handle
input, animate the cube, compute the eye poses, render the eye buffers when
`isVisible`, and submit. -/
def frameBody (s : LoopState) (f : FrameEnv) : List Ev × LoopState :=
  let eyes := if s.isVisible then renderEyes s else ([], s)
  ([Ev.pollInput, Ev.animateCube, Ev.computePoses] ++ eyes.1 ++
    [Ev.submitFrame f.submitResult], eyes.2)

/-- The full event list of one loop iteration whose `HandleMessages` returned
true: the body up to the submit, then the mirror copy-and-present exactly
when the submit succeeded. -/
def iterEvents (s : LoopState) (f : FrameEnv) : List Ev :=
  (frameBody s f).1 ++
    (if OVR_SUCCESS f.submitResult then [Ev.renderMirror] else [])

/-- How `MainLoop` can end on a given trace. -/
inductive Outcome where
  | ret (b : Bool)
  | exited
  | truncated
  deriving DecidableEq

/-- The first revision's render loop.  A failed submit returns `retryCreate`
immediately; otherwise `isVisible` is recomputed, the mirror is copied and
presented, and the loop continues.  When `HandleMessages` reports not
running, the loop exits and the function returns
`retryCreate || OVR_SUCCESS(result) || (result == ovrError_DisplayLost)`. -/
def runFrames1 (retryCreate : Bool) (s : LoopState) (result : OvrResult) :
    List FrameEnv → List Ev × Outcome
  | [] => ([], Outcome.truncated)
  | f :: rest =>
      if f.running then
        let body := frameBody s f
        if OVR_SUCCESS f.submitResult then
          let s2 := { body.2 with isVisible := f.submitResult == ovrSuccess }
          let cont := runFrames1 retryCreate s2 f.submitResult rest
          (body.1 ++ Ev.renderMirror :: cont.1, cont.2)
        else (body.1, Outcome.ret retryCreate)
      else
        ([], Outcome.ret (retryCreate || OVR_SUCCESS result ||
          (result == ovrError_DisplayLost)))

/-- The second revision's render loop; identical except that on loop exit it
returns `retryCreate || !window.Running || result == ovrError_DisplayLost`
(`window.Running` being the value `HandleMessages` just returned). -/
def runFrames2 (retryCreate : Bool) (s : LoopState) (result : OvrResult) :
    List FrameEnv → List Ev × Outcome
  | [] => ([], Outcome.truncated)
  | f :: rest =>
      if f.running then
        let body := frameBody s f
        if OVR_SUCCESS f.submitResult then
          let s2 := { body.2 with isVisible := f.submitResult == ovrSuccess }
          let cont := runFrames2 retryCreate s2 f.submitResult rest
          (body.1 ++ Ev.renderMirror :: cont.1, cont.2)
        else (body.1, Outcome.ret retryCreate)
      else
        ([], Outcome.ret (retryCreate || !f.running ||
          (result == ovrError_DisplayLost)))

/-- The inputs one `MainLoop` invocation consumes: the `ovr_Create` result,
whether device initialization succeeded, the `ovr_ConfigureTracking` result,
the two swap-texture-set creation results with the reported `TextureCount`s
and initial `CurrentIndex`es, the mirror texture creation result, and the
per-iteration inputs. -/
structure MainLoopEnv where
  createResult : OvrResult
  initDeviceOk : Bool
  trackingResult : OvrResult
  swapCreateL : OvrResult
  swapCreateR : OvrResult
  texCountL : Nat
  texCountR : Nat
  initIdxL : Nat
  initIdxR : Nat
  mirrorResult : OvrResult
  frames : List FrameEnv
  deriving DecidableEq

/-- The state the render loop starts from: `isVisible = true` and the two
swap texture sets as created. -/
def initLoopState (env : MainLoopEnv) : LoopState :=
  { isVisible := true,
    eyeTexL := ⟨env.initIdxL, env.texCountL⟩,
    eyeTexR := ⟨env.initIdxR, env.texCountR⟩ }

/-- All the creation steps `MainLoop` validates succeeded (there is no
`truncated`/`exited` outcome on such traces before the loop). -/
def envValid (env : MainLoopEnv) : Prop :=
  OVR_SUCCESS env.createResult = true ∧ env.initDeviceOk = true ∧
  OVR_SUCCESS env.trackingResult = true ∧
  OVR_SUCCESS env.swapCreateL = true ∧ env.texCountL = 2 ∧
  OVR_SUCCESS env.swapCreateR = true ∧ env.texCountR = 2 ∧
  OVR_SUCCESS env.mirrorResult = true

instance (env : MainLoopEnv) : Decidable (envValid env) := by
  unfold envValid; infer_instance

/-- The first revision's `MainLoop`: `ovr_Create` failure and `InitDevice`
failure return `retryCreate`; the `VALIDATE` macros on tracking, swap set
creation and `TextureCount`, and mirror creation exit the process. -/
def MainLoop1 (retryCreate : Bool) (env : MainLoopEnv) : List Ev × Outcome :=
  if !OVR_SUCCESS env.createResult then ([], Outcome.ret retryCreate)
  else if !env.initDeviceOk then ([], Outcome.ret retryCreate)
  else if !OVR_SUCCESS env.trackingResult then ([], Outcome.exited)
  else if !OVR_SUCCESS env.swapCreateL then ([], Outcome.exited)
  else if env.texCountL ≠ 2 then ([], Outcome.exited)
  else if !OVR_SUCCESS env.swapCreateR then ([], Outcome.exited)
  else if env.texCountR ≠ 2 then ([], Outcome.exited)
  else if !OVR_SUCCESS env.mirrorResult then ([], Outcome.exited)
  else runFrames1 retryCreate (initLoopState env) env.mirrorResult env.frames

/-- The second revision's `MainLoop`: identical except that device
initialization failures exit inside the `DirectX11` constructor's `VALIDATE`
rather than returning `retryCreate`, and the loop-exit return value is the
second revision's. -/
def MainLoop2 (retryCreate : Bool) (env : MainLoopEnv) : List Ev × Outcome :=
  if !OVR_SUCCESS env.createResult then ([], Outcome.ret retryCreate)
  else if !env.initDeviceOk then ([], Outcome.exited)
  else if !OVR_SUCCESS env.trackingResult then ([], Outcome.exited)
  else if !OVR_SUCCESS env.swapCreateL then ([], Outcome.exited)
  else if env.texCountL ≠ 2 then ([], Outcome.exited)
  else if !OVR_SUCCESS env.swapCreateR then ([], Outcome.exited)
  else if env.texCountR ≠ 2 then ([], Outcome.exited)
  else if !OVR_SUCCESS env.mirrorResult then ([], Outcome.exited)
  else runFrames2 retryCreate (initLoopState env) env.mirrorResult env.frames

/-- The last value the `result` local holds when the loop exits normally
after the given successful iterations: the last submit result, or the
(validated) mirror creation result when no iteration ran. -/
def lastResult (mirrorResult : OvrResult) (pre : List FrameEnv) : OvrResult :=
  (pre.map FrameEnv.submitResult).getLastD mirrorResult

/-! ## The outer retry loop (`DirectX11::Run` / `Window::Run`)

Both revisions run `MainLoop` through the same driver: a first call with
`retryCreate == false` whose failure is fatal (`VALIDATE`: error dialog and
process exit), then, while message handling reports the app running, calls
with `retryCreate == true`, stopping at the first `false` return, with a
`Sleep(10)` after every successful retry call. -/

/-- Observable events of the outer driver. -/
inductive RunEvent where
  | callMainLoop (retryCreate : Bool) (returned : Bool)
  | fatalErrorExit
  | sleep10
  deriving DecidableEq

/-- The driver's `while (HandleMessages())` loop over a trace of
`(HandleMessages result, MainLoop(true) result)` pairs. -/
def runOuterLoop : List (Bool × Bool) → List RunEvent
  | [] => []
  | (hm, r) :: rest =>
      if hm then
        RunEvent.callMainLoop true r ::
          (if r then RunEvent.sleep10 :: runOuterLoop rest else [])
      else []

/-- The whole driver: `VALIDATE(MainLoop(false), ...)` then the retry loop. -/
def runOuter (firstResult : Bool) (iters : List (Bool × Bool)) : List RunEvent :=
  RunEvent.callMainLoop false firstResult ::
    (if firstResult then runOuterLoop iters else [RunEvent.fatalErrorExit])

/-! ## Helper lemmas about the row-major write pattern -/

/-- Row-major enumeration of a `a × b` grid, flattened, is `List.range (a*b)`,
for any per-cell payload that only depends on the flat index. -/
theorem join_range_grid (a b : Nat) {α : Type} (F : Nat → Nat → α) (G : Nat → α)
    (h : ∀ j i, i < b → F j i = G (j * b + i)) :
    ((List.range a).map fun j => (List.range b).map fun i => F j i).flatten =
      (List.range (a * b)).map G := by
  induction a with
  | zero => simp
  | succ a ih =>
      rw [List.range_succ, List.map_append, List.flatten_append, ih,
        Nat.succ_mul, List.range_add, List.map_append]
      simp only [List.map_singleton, List.flatten_cons, List.flatten_nil, List.append_nil,
        List.map_map]
      congr 1
      apply List.map_congr_left
      intro i hi
      rw [h a i (List.mem_range.mp hi)]
      rfl

/-- Applying in-order writes at indices `range n` with values `g` to a buffer
of length at least `n` rewrites its first `n` cells to `map g (range n)`. -/
theorem writeSeq_range (g : Nat → Nat) (n : Nat) (a : List Nat) (hn : n ≤ a.length) :
    writeSeq ((List.range n).map fun k => (k, g k)) a =
      (List.range n).map g ++ a.drop n := by
  induction n with
  | zero => simp [writeSeq]
  | succ n ih =>
      have ih2 := ih (Nat.le_of_succ_le hn)
      unfold writeSeq at ih2 ⊢
      rw [List.range_succ, List.map_append, List.foldl_append, ih2]
      simp only [List.map_singleton, List.foldl_cons, List.foldl_nil]
      rw [List.set_append_right _ _ (by simp : ((List.range n).map g).length ≤ n)]
      simp only [List.range_succ, List.map_append, List.map_singleton, List.length_map,
        List.length_range, List.append_assoc, List.singleton_append, Nat.sub_self]
      rw [List.drop_eq_getElem_cons (by omega : n < a.length)]
      rfl

/-! ## Swap texture ring lemmas -/

theorem advanceIter_texCount (n : Nat) (ts : SwapTextureSet) :
    (advanceIter n ts).TextureCount = ts.TextureCount := by
  induction n generalizing ts with
  | zero => rfl
  | succ n ih => rw [advanceIter, ih]; rfl

theorem advanceIter_mod (n : Nat) (ts : SwapTextureSet) (h0 : 0 < ts.TextureCount)
    (hc : ts.CurrentIndex < ts.TextureCount) :
    (advanceIter n ts).CurrentIndex = (ts.CurrentIndex + n) % ts.TextureCount := by
  induction n generalizing ts with
  | zero => rw [advanceIter]; exact (Nat.mod_eq_of_lt hc).symm
  | succ n ih =>
      rw [advanceIter]
      have h2 : (AdvanceToNextTexture ts).2 =
          ⟨(ts.CurrentIndex + 1) % ts.TextureCount, ts.TextureCount⟩ := rfl
      rw [h2, ih ⟨(ts.CurrentIndex + 1) % ts.TextureCount, ts.TextureCount⟩ h0
        (Nat.mod_lt _ h0)]
      simp only [Nat.mod_add_mod]
      congr 1
      omega

/-- C4: `AdvanceToNextTexture` sets `CurrentIndex` to
`(CurrentIndex + 1) % TextureCount` and returns that new index; the returned
index is always below `TextureCount`, applying the operation `TextureCount`
times returns `CurrentIndex` to its starting value, and with the validated
`TextureCount` of 2 the returned index is a valid index into the two-element
`TexRtv` array. -/
theorem advanceToNextTexture_spec (ts : SwapTextureSet) (h0 : 0 < ts.TextureCount)
    (hc : ts.CurrentIndex < ts.TextureCount) :
    (AdvanceToNextTexture ts).1 = (ts.CurrentIndex + 1) % ts.TextureCount ∧
    (AdvanceToNextTexture ts).2.CurrentIndex = (AdvanceToNextTexture ts).1 ∧
    (AdvanceToNextTexture ts).2.TextureCount = ts.TextureCount ∧
    (AdvanceToNextTexture ts).1 < ts.TextureCount ∧
    (advanceIter ts.TextureCount ts).CurrentIndex = ts.CurrentIndex ∧
    (ts.TextureCount = 2 → (AdvanceToNextTexture ts).1 < 2) := by
  refine ⟨rfl, rfl, rfl, Nat.mod_lt _ h0, ?_, ?_⟩
  · rw [advanceIter_mod _ _ h0 hc, Nat.add_mod_right]
    exact Nat.mod_eq_of_lt hc
  · intro h2
    show (ts.CurrentIndex + 1) % ts.TextureCount < 2
    rw [h2]
    exact Nat.mod_lt _ (by omega)

/-- Witness for C4 at the concrete state `CurrentIndex = 0, TextureCount = 2`. -/
theorem advanceToNextTexture_spec_witness :
    0 < (⟨0, 2⟩ : SwapTextureSet).TextureCount ∧
    ((AdvanceToNextTexture ⟨0, 2⟩).1 =
        ((⟨0, 2⟩ : SwapTextureSet).CurrentIndex + 1) %
          (⟨0, 2⟩ : SwapTextureSet).TextureCount ∧
      (AdvanceToNextTexture ⟨0, 2⟩).2.CurrentIndex = (AdvanceToNextTexture ⟨0, 2⟩).1 ∧
      (AdvanceToNextTexture ⟨0, 2⟩).2.TextureCount =
        (⟨0, 2⟩ : SwapTextureSet).TextureCount ∧
      (AdvanceToNextTexture ⟨0, 2⟩).1 < (⟨0, 2⟩ : SwapTextureSet).TextureCount ∧
      (advanceIter (⟨0, 2⟩ : SwapTextureSet).TextureCount ⟨0, 2⟩).CurrentIndex =
        (⟨0, 2⟩ : SwapTextureSet).CurrentIndex ∧
      ((⟨0, 2⟩ : SwapTextureSet).TextureCount = 2 →
        (AdvanceToNextTexture ⟨0, 2⟩).1 < 2)) :=
  ⟨by decide, advanceToNextTexture_spec ⟨0, 2⟩ (by decide) (by decide)⟩

/-! ## Equivalence of the two `createTexture` revisions -/

/-- C9: the two revisions of `createTexture` are equivalent on their shared
fills: for `AUTO_WHITE`, `AUTO_WALL`, `AUTO_FLOOR` and `AUTO_CEILING` the two
fill loops agree pixel for pixel and produce identical pixel arrays. -/
theorem createTexture_revisions_agree :
    (∀ x y, texPixel2 TextureFill2.AUTO_WHITE x y = texPixel TextureFill.AUTO_WHITE x y) ∧
    (∀ x y, texPixel2 TextureFill2.AUTO_WALL x y = texPixel TextureFill.AUTO_WALL x y) ∧
    (∀ x y, texPixel2 TextureFill2.AUTO_FLOOR x y = texPixel TextureFill.AUTO_FLOOR x y) ∧
    (∀ x y, texPixel2 TextureFill2.AUTO_CEILING x y =
      texPixel TextureFill.AUTO_CEILING x y) ∧
    fillLoop2 TextureFill2.AUTO_WHITE = fillLoop TextureFill.AUTO_WHITE ∧
    fillLoop2 TextureFill2.AUTO_WALL = fillLoop TextureFill.AUTO_WALL ∧
    fillLoop2 TextureFill2.AUTO_FLOOR = fillLoop TextureFill.AUTO_FLOOR ∧
    fillLoop2 TextureFill2.AUTO_CEILING = fillLoop TextureFill.AUTO_CEILING :=
  ⟨fun _ _ => rfl, fun _ _ => rfl, fun _ _ => rfl, fun _ _ => rfl,
    rfl, rfl, rfl, rfl⟩

/-! ## Outer retry loop lemmas -/

theorem runOuterLoop_no_false_calls (iters : List (Bool × Bool)) :
    ∀ e ∈ runOuterLoop iters, ∀ r, e ≠ RunEvent.callMainLoop false r := by
  induction iters with
  | nil => intro e he; simp [runOuterLoop] at he
  | cons p rest ih =>
      rcases p with ⟨hm, r⟩
      intro e he rr
      by_cases hhm : hm
      · simp only [runOuterLoop, hhm, if_true] at he
        rcases List.mem_cons.mp he with h1 | h2
        · subst h1; simp
        · by_cases hr : r
          · simp only [hr, if_true] at h2
            rcases List.mem_cons.mp h2 with h3 | h4
            · subst h3; simp
            · exact ih e h4 rr
          · simp [hr] at h2
      · simp [runOuterLoop, hhm] at he

theorem runOuterLoop_stop_on_false (iters : List (Bool × Bool)) :
    ∀ k, (runOuterLoop iters)[k]? = some (RunEvent.callMainLoop true false) →
      k + 1 = (runOuterLoop iters).length := by
  induction iters with
  | nil => intro k h; simp [runOuterLoop] at h
  | cons p rest ih =>
      rcases p with ⟨hm, r⟩
      intro k h
      by_cases hhm : hm
      · by_cases hr : r
        · simp only [runOuterLoop, hhm, hr, if_true] at h ⊢
          match k with
          | 0 => simp at h
          | 1 => simp at h
          | k + 2 =>
              simp only [List.getElem?_cons_succ] at h
              have := ih k h
              simp only [List.length_cons]
              omega
        · simp only [runOuterLoop, hhm, hr, if_true, if_false] at h ⊢
          match k with
          | 0 => simp
          | k + 1 => simp at h
      · simp [runOuterLoop, hhm] at h

theorem runOuterLoop_sleep_after_true (iters : List (Bool × Bool)) :
    ∀ k, (runOuterLoop iters)[k]? = some (RunEvent.callMainLoop true true) →
      (runOuterLoop iters)[k + 1]? = some RunEvent.sleep10 := by
  induction iters with
  | nil => intro k h; simp [runOuterLoop] at h
  | cons p rest ih =>
      rcases p with ⟨hm, r⟩
      intro k h
      by_cases hhm : hm
      · by_cases hr : r
        · simp only [runOuterLoop, hhm, hr, if_true] at h ⊢
          match k with
          | 0 => simp
          | 1 => simp at h
          | k + 2 =>
              simp only [List.getElem?_cons_succ] at h ⊢
              exact ih k h
        · simp only [runOuterLoop, hhm, hr, if_true, if_false] at h ⊢
          match k with
          | 0 => simp at h
          | k + 1 => simp at h
      · simp [runOuterLoop, hhm] at h

/-- C8: the driver calls `MainLoop` first with `retryCreate == false` and
treats a `false` return as fatal; every later call passes
`retryCreate == true`; the first `false` return from a retry call ends the
event sequence; and a `Sleep` follows every successful retry call. -/
theorem run_retry_driver (firstResult : Bool) (iters : List (Bool × Bool)) :
    (runOuter firstResult iters).head? =
        some (RunEvent.callMainLoop false firstResult) ∧
    (firstResult = false →
      runOuter firstResult iters =
        [RunEvent.callMainLoop false false, RunEvent.fatalErrorExit]) ∧
    (∀ e ∈ (runOuter firstResult iters).tail, ∀ r,
      e ≠ RunEvent.callMainLoop false r) ∧
    (∀ k, (runOuter firstResult iters)[k]? =
        some (RunEvent.callMainLoop true false) →
      k + 1 = (runOuter firstResult iters).length) ∧
    (∀ k, (runOuter firstResult iters)[k]? =
        some (RunEvent.callMainLoop true true) →
      (runOuter firstResult iters)[k + 1]? = some RunEvent.sleep10) := by
  refine ⟨rfl, ?_, ?_, ?_, ?_⟩
  · intro h; subst h; rfl
  · intro e he r
    rcases Bool.eq_false_or_eq_true firstResult with hf | hf
    all_goals subst hf
    · simp only [runOuter, if_true, List.tail_cons] at he
      exact runOuterLoop_no_false_calls iters e he r
    · simp [runOuter] at he
      subst he; simp
  · intro k h
    rcases Bool.eq_false_or_eq_true firstResult with hf | hf
    all_goals subst hf
    · simp only [runOuter, if_true] at h ⊢
      match k with
      | 0 => simp at h
      | k + 1 =>
          simp only [List.getElem?_cons_succ] at h
          have := runOuterLoop_stop_on_false iters k h
          simp only [List.length_cons]
          omega
    · simp only [runOuter] at h
      match k with
      | 0 => simp at h
      | 1 => simp at h
      | k + 2 => simp at h
  · intro k h
    rcases Bool.eq_false_or_eq_true firstResult with hf | hf
    all_goals subst hf
    · simp only [runOuter, if_true] at h ⊢
      match k with
      | 0 => simp at h
      | k + 1 =>
          simp only [List.getElem?_cons_succ] at h ⊢
          exact runOuterLoop_sleep_after_true iters k h
    · simp only [runOuter] at h
      match k with
      | 0 => simp at h
      | 1 => simp at h
      | k + 2 => simp at h

/-- Witness for C8 on concrete traces: a fatal first call, a stopping retry
call, and a sleeping retry call. -/
theorem run_retry_driver_witness :
    runOuter false [] =
      [RunEvent.callMainLoop false false, RunEvent.fatalErrorExit] ∧
    1 + 1 = (runOuter true [(true, false)]).length ∧
    (runOuter true [(true, true)])[1 + 1]? = some RunEvent.sleep10 :=
  ⟨(run_retry_driver false []).2.1 rfl,
    (run_retry_driver true [(true, false)]).2.2.2.1 1 (by decide),
    (run_retry_driver true [(true, true)]).2.2.2.2 1 (by decide)⟩

/-! ## Texture fill lemmas -/

theorem fillWrites_eq (texFill : TextureFill) :
    fillWrites texFill =
      (List.range (256 * 256)).map
        (fun k => (k, texPixel texFill (k % 256) (k / 256))) := by
  unfold fillWrites
  refine join_range_grid 256 256 _ _ ?_
  intro j i hi
  have h1 : (j * 256 + i) % 256 = i := by omega
  have h2 : (j * 256 + i) / 256 = j := by omega
  rw [h1, h2]

theorem fillLoop_eq (texFill : TextureFill) :
    fillLoop texFill =
      (List.range (256 * 256)).map
        (fun k => texPixel texFill (k % 256) (k / 256)) := by
  unfold fillLoop
  rw [fillWrites_eq,
    writeSeq_range (fun k => texPixel texFill (k % 256) (k / 256)) (256 * 256)
      (List.replicate (256 * 256) 0) (by rw [List.length_replicate]),
    List.drop_replicate, Nat.sub_self, List.replicate_zero, List.append_nil]

theorem texPixel_opaque (texFill : TextureFill) (i j : Nat) (hi : i < 256) :
    texPixel texFill i j / 2 ^ 24 = 0xff := by
  cases texFill with
  | AUTO_WALL => simp only [texPixel]; split <;> split <;> decide
  | AUTO_FLOOR => simp only [texPixel]; split <;> decide
  | AUTO_CEILING => simp only [texPixel]; split <;> decide
  | AUTO_WHITE => simp only [texPixel]; decide
  | AUTO_GRADE_256 =>
      simp only [texPixel]
      have h : (2 : Nat) ^ 24 = 16777216 := by norm_num
      rw [h]
      omega
  | AUTO_GRID => simp only [texPixel]; split <;> decide

theorem texPixel_floor_checker (i j : Nat) (hi : i < 256) (hj : j < 256) :
    texPixel TextureFill.AUTO_FLOOR i j =
      if i.testBit 7 ≠ j.testBit 7 then 0xffb4b4b4 else 0xff505050 := by
  simp only [texPixel]
  rw [Nat.testBit_to_div_mod, Nat.testBit_to_div_mod, Nat.shiftRight_eq_div_pow,
    Nat.shiftRight_eq_div_pow]
  have h7 : (2 : Nat) ^ 7 = 128 := by norm_num
  rw [h7]
  have ha : i / 128 = 0 ∨ i / 128 = 1 := by omega
  have hb : j / 128 = 0 ∨ j / 128 = 1 := by omega
  rcases ha with h | h <;> rcases hb with h2 | h2 <;> rw [h, h2] <;> decide

/-- C5: the first revision's fill loop writes each of the 256×256 pixels
exactly once (the write-index sequence is exactly `0, 1, ..., 256*256 - 1`),
always with a fully opaque color (top byte `0xff`); `AUTO_WHITE` yields
`0xffffffff` everywhere, and `AUTO_FLOOR` yields the 128×128-block
checkerboard determined by bit 7 of the two coordinates. -/
theorem createTexture_fill_spec (texFill : TextureFill) :
    ((fillWrites texFill).map Prod.fst = List.range (256 * 256)) ∧
    (fillLoop texFill =
      (List.range (256 * 256)).map
        (fun k => texPixel texFill (k % 256) (k / 256))) ∧
    (∀ i j, i < 256 → texPixel texFill i j / 2 ^ 24 = 0xff) ∧
    (∀ i j, texPixel TextureFill.AUTO_WHITE i j = 0xffffffff) ∧
    (∀ i j, i < 256 → j < 256 →
      texPixel TextureFill.AUTO_FLOOR i j =
        if i.testBit 7 ≠ j.testBit 7 then 0xffb4b4b4 else 0xff505050) := by
  refine ⟨?_, fillLoop_eq texFill, fun i j hi => texPixel_opaque texFill i j hi,
    fun i j => rfl, fun i j hi hj => texPixel_floor_checker i j hi hj⟩
  rw [fillWrites_eq, List.map_map]
  have hcomp : (Prod.fst ∘ fun k => (k, texPixel texFill (k % 256) (k / 256))) =
      id := rfl
  rw [hcomp, List.map_id]

/-- Witness for C5: the opacity and checkerboard clauses evaluated at the
concrete pixel `(130, 7)` for the floor fill. -/
theorem createTexture_fill_spec_witness :
    texPixel TextureFill.AUTO_FLOOR 130 7 / 2 ^ 24 = 0xff ∧
    texPixel TextureFill.AUTO_FLOOR 130 7 =
      if Nat.testBit 130 7 ≠ Nat.testBit 7 7 then 0xffb4b4b4 else 0xff505050 :=
  ⟨(createTexture_fill_spec TextureFill.AUTO_FLOOR).2.2.1 130 7 (by decide),
    (createTexture_fill_spec TextureFill.AUTO_FLOOR).2.2.2.2 130 7 (by decide)
      (by decide)⟩

/-! ## Box-mesh lemmas -/

theorem addTriangle_spec {V : Type} (vs : List V) : ∀ ts : TriangleSet V,
    (addTriangle ts vs).Vertices = ts.Vertices ++ vs ∧
    (addTriangle ts vs).Indices =
      ts.Indices ++ (List.range' ts.Vertices.length vs.length).map toInt16 := by
  induction vs with
  | nil => intro ts; simp [addTriangle]
  | cons v rest ih =>
      intro ts
      have step : addTriangle ts (v :: rest) =
          addTriangle
            ⟨ts.Vertices ++ [v], ts.Indices ++ [toInt16 ts.Vertices.length]⟩
            rest := rfl
      rw [step]
      rcases ih ⟨ts.Vertices ++ [v], ts.Indices ++ [toInt16 ts.Vertices.length]⟩
        with ⟨h1, h2⟩
      constructor
      · rw [h1]; simp
      · rw [h2]
        simp only [List.length_append, List.length_singleton, List.length_cons,
          List.range'_succ, List.map_cons, List.append_assoc, List.singleton_append]
        norm_num

theorem addQuadP_spec {V : Type} (ts : TriangleSet V) (q : V × V × V × V) :
    (addQuadP ts q).Vertices.length = ts.Vertices.length + 6 ∧
    (addQuadP ts q).Indices =
      ts.Indices ++ (List.range' ts.Vertices.length 6).map toInt16 := by
  unfold addQuadP addQuad
  rcases addTriangle_spec [q.1, q.2.1, q.2.2.1] ts with ⟨h1, h2⟩
  rcases addTriangle_spec [q.2.2.2, q.2.2.1, q.2.1] (addTriangle ts [q.1, q.2.1, q.2.2.1])
    with ⟨h3, h4⟩
  constructor
  · rw [h3, h1]; simp
  · rw [h4, h2, h1]
    simp only [List.length_append, List.length_cons, List.length_nil,
      List.append_assoc, ← List.map_append]
    rw [show ts.Vertices.length + (2 + 1) = ts.Vertices.length + 3 by omega,
      List.range'_append_1]

theorem tsExtend_trans {V : Type} {t1 t2 t3 : TriangleSet V} {m n : Nat}
    (h12v : t2.Vertices.length = t1.Vertices.length + m)
    (h12i : t2.Indices = t1.Indices ++ (List.range' t1.Vertices.length m).map toInt16)
    (h23v : t3.Vertices.length = t2.Vertices.length + n)
    (h23i : t3.Indices = t2.Indices ++ (List.range' t2.Vertices.length n).map toInt16) :
    t3.Vertices.length = t1.Vertices.length + (m + n) ∧
    t3.Indices = t1.Indices ++ (List.range' t1.Vertices.length (m + n)).map toInt16 := by
  refine ⟨by omega, ?_⟩
  rw [h23i, h12i, h12v, List.append_assoc, ← List.map_append,
    List.range'_append_1, Nat.add_comm n m]

theorem addBox_spec {V : Type} (ts : TriangleSet V)
    (q1 q2 q3 q4 q5 q6 : V × V × V × V) :
    (AddBox ts q1 q2 q3 q4 q5 q6).Vertices.length = ts.Vertices.length + 36 ∧
    (AddBox ts q1 q2 q3 q4 q5 q6).Indices =
      ts.Indices ++ (List.range' ts.Vertices.length 36).map toInt16 := by
  have e1 := addQuadP_spec ts q1
  have e2 := addQuadP_spec (addQuadP ts q1) q2
  have e3 := addQuadP_spec (addQuadP (addQuadP ts q1) q2) q3
  have e4 := addQuadP_spec (addQuadP (addQuadP (addQuadP ts q1) q2) q3) q4
  have e5 := addQuadP_spec (addQuadP (addQuadP (addQuadP (addQuadP ts q1) q2) q3) q4) q5
  have e6 := addQuadP_spec
    (addQuadP (addQuadP (addQuadP (addQuadP (addQuadP ts q1) q2) q3) q4) q5) q6
  have c2 := tsExtend_trans e1.1 e1.2 e2.1 e2.2
  have c3 := tsExtend_trans c2.1 c2.2 e3.1 e3.2
  have c4 := tsExtend_trans c3.1 c3.2 e4.1 e4.2
  have c5 := tsExtend_trans c4.1 c4.2 e5.1 e5.2
  have c6 := tsExtend_trans c5.1 c5.2 e6.1 e6.2
  rw [show (6 + 6 + 6 + 6 + 6 + 6 : Nat) = 36 by norm_num] at c6
  exact c6

theorem addBox_enumerate {V : Type} (ts : TriangleSet V)
    (q1 q2 q3 q4 q5 q6 : V × V × V × V) (h : indicesEnumerate ts) :
    indicesEnumerate (AddBox ts q1 q2 q3 q4 q5 q6) := by
  unfold indicesEnumerate at h ⊢
  rcases addBox_spec ts q1 q2 q3 q4 q5 q6 with ⟨h1, h2⟩
  rw [h2, h, h1, List.range_eq_range', List.range_eq_range', ← List.map_append,
    show List.range' ts.Vertices.length 36 =
      List.range' (0 + ts.Vertices.length) 36 by rw [Nat.zero_add],
    List.range'_append_1, Nat.add_comm 36 ts.Vertices.length]

theorem indicesEnumerate_getElem {V : Type} (ts : TriangleSet V)
    (h : indicesEnumerate ts) (k : Nat) (hk : k < ts.Indices.length) :
    ts.Indices[k]? = some (toInt16 k) := by
  rw [indicesEnumerate] at h
  rw [h] at hk ⊢
  simp only [List.length_map, List.length_range] at hk
  rw [List.getElem?_map, List.getElem?_range hk]
  rfl

theorem toInt16_of_lt (k : Nat) (hk : k < 2 ^ 15) : toInt16 k = (k : Int) := by
  unfold toInt16
  have h : (k + 2 ^ 15) % 2 ^ 16 = k + 2 ^ 15 := Nat.mod_eq_of_lt (by omega)
  rw [h]
  push_cast
  omega

theorem addBoxQ_enumerate {V : Type} (ts : TriangleSet V) (q : BoxQuads V)
    (h : indicesEnumerate ts) : indicesEnumerate (addBoxQ ts q) := by
  unfold addBoxQ
  exact addBox_enumerate ts q.1 q.2.1 q.2.2.1 q.2.2.2.1 q.2.2.2.2.1 q.2.2.2.2.2 h

theorem buildBoxes_enumerate {V : Type} (qs : List (BoxQuads V)) :
    indicesEnumerate (buildBoxes qs) := by
  unfold buildBoxes
  have general : ∀ ts : TriangleSet V, indicesEnumerate ts →
      indicesEnumerate (qs.foldl addBoxQ ts) := by
    induction qs with
    | nil => intro ts h; exact h
    | cons q rest ih =>
        intro ts h
        rw [List.foldl_cons]
        exact ih (addBoxQ ts q) (addBoxQ_enumerate ts q h)
  exact general (emptyTriangleSet V) (by simp [indicesEnumerate, emptyTriangleSet])

theorem addBoxIter_spec (n : Nat) :
    indicesEnumerate (addBoxIter n) ∧ (addBoxIter n).Vertices.length = 36 * n := by
  induction n with
  | zero =>
      exact ⟨by simp [indicesEnumerate, addBoxIter, emptyTriangleSet], rfl⟩
  | succ n ih =>
      rcases ih with ⟨h1, h2⟩
      constructor
      · show indicesEnumerate (AddBox (addBoxIter n) ((), (), (), ())
          ((), (), (), ()) ((), (), (), ()) ((), (), (), ()) ((), (), (), ())
          ((), (), (), ()))
        exact addBox_enumerate (addBoxIter n) ((), (), (), ()) ((), (), (), ())
          ((), (), (), ()) ((), (), (), ()) ((), (), (), ()) ((), (), (), ()) h1
      · show (AddBox (addBoxIter n) ((), (), (), ()) ((), (), (), ())
          ((), (), (), ()) ((), (), (), ()) ((), (), (), ())
          ((), (), (), ())).Vertices.length = 36 * (n + 1)
        rw [(addBox_spec (addBoxIter n) ((), (), (), ()) ((), (), (), ())
          ((), (), (), ()) ((), (), (), ()) ((), (), (), ()) ((), (), (), ())).1, h2]
        omega

/-- C6 counterexample: after 911 `AddBox` calls (32796 vertices), the index
pushed as the 32769th entry is the `short`-narrowed value `-32768`, not the
vertex count 32768 that the claim asserts. -/
theorem addBox_index_narrowing_cex :
    (addBoxIter 911).Indices[32768]? = some (-32768 : Int) ∧
    (addBoxIter 911).Indices[32768]? ≠ some ((32768 : Nat) : Int) := by
  rcases addBoxIter_spec 911 with ⟨h1, h2⟩
  have hlen : (addBoxIter 911).Indices.length = 32796 := by
    rw [indicesEnumerate] at h1
    rw [h1, List.length_map, List.length_range, h2]
  have hget := indicesEnumerate_getElem _ h1 32768 (by omega)
  have hval : toInt16 32768 = (-32768 : Int) := by decide
  rw [hget, hval]
  exact ⟨rfl, by decide⟩

/-- C6 (amended): every `AddBox` call appends exactly 36 vertices and 36
indices, and each appended index is the vertex count at the moment of the
push narrowed to a signed 16-bit `short`; consequently any `TriangleSet`
built from the empty set by `AddBox` calls has as many indices as vertices
and `Indices[k] = toInt16 k` — which equals `k` exactly as long as the set
holds at most `2^15` vertices. -/
theorem addBox_indices_spec {V : Type} (ts : TriangleSet V)
    (q1 q2 q3 q4 q5 q6 : V × V × V × V) (h : indicesEnumerate ts) :
    (AddBox ts q1 q2 q3 q4 q5 q6).Vertices.length = ts.Vertices.length + 36 ∧
    (AddBox ts q1 q2 q3 q4 q5 q6).Indices.length = ts.Indices.length + 36 ∧
    (AddBox ts q1 q2 q3 q4 q5 q6).Indices =
      ts.Indices ++ (List.range' ts.Vertices.length 36).map toInt16 ∧
    indicesEnumerate (AddBox ts q1 q2 q3 q4 q5 q6) ∧
    (∀ qs : List (BoxQuads V),
      (buildBoxes qs).Indices.length = (buildBoxes qs).Vertices.length ∧
      (∀ k, k < (buildBoxes qs).Indices.length →
        (buildBoxes qs).Indices[k]? = some (toInt16 k)) ∧
      (∀ k, k < (buildBoxes qs).Indices.length → k < 2 ^ 15 →
        (buildBoxes qs).Indices[k]? = some ((k : Nat) : Int))) := by
  rcases addBox_spec ts q1 q2 q3 q4 q5 q6 with ⟨h1, h2⟩
  refine ⟨h1, ?_, h2, addBox_enumerate ts q1 q2 q3 q4 q5 q6 h, ?_⟩
  · rw [h2]; simp
  · intro qs
    have he := buildBoxes_enumerate qs
    refine ⟨?_, fun k hk => indicesEnumerate_getElem _ he k hk, fun k hk hk15 => ?_⟩
    · rw [indicesEnumerate] at he
      rw [he, List.length_map, List.length_range]
    · rw [indicesEnumerate_getElem _ he k hk, toInt16_of_lt k hk15]

/-- Witness for C6 at the empty `TriangleSet` over the unit vertex type. -/
theorem addBox_indices_spec_witness :
    (AddBox (emptyTriangleSet Unit) ((), (), (), ()) ((), (), (), ())
        ((), (), (), ()) ((), (), (), ()) ((), (), (), ())
        ((), (), (), ())).Vertices.length =
      (emptyTriangleSet Unit).Vertices.length + 36 ∧
    (buildBoxes ([] : List (BoxQuads Unit))).Indices.length =
      (buildBoxes ([] : List (BoxQuads Unit))).Vertices.length :=
  ⟨(addBox_indices_spec (emptyTriangleSet Unit) _ _ _ _ _ _ rfl).1,
    ((addBox_indices_spec (emptyTriangleSet Unit) ((), (), (), ()) ((), (), (), ())
        ((), (), (), ()) ((), (), (), ()) ((), (), (), ()) ((), (), (), ())
        rfl).2.2.2.2 []).1⟩

/-! ## Shading lemmas -/

theorem land_alpha_mask (c : Nat) : c &&& 0xff000000 = c / 2 ^ 24 % 2 ^ 8 * 2 ^ 24 := by
  have hm : (0xff000000 : Nat) = (2 ^ 8 - 1) <<< 24 := by decide
  rw [hm]
  apply Nat.eq_of_testBit_eq
  intro i
  rw [show c / 2 ^ 24 % 2 ^ 8 * 2 ^ 24 = (c >>> 24 % 2 ^ 8) <<< 24 by
    rw [Nat.shiftLeft_eq, Nat.shiftRight_eq_div_pow]]
  simp only [Nat.testBit_and, Nat.testBit_shiftLeft, Nat.testBit_two_pow_sub_one,
    Nat.testBit_mod_two_pow, Nat.testBit_shiftRight]
  by_cases h24 : 24 ≤ i
  · have hi : 24 + (i - 24) = i := by omega
    simp [h24, hi, Bool.and_comm, Bool.and_assoc, Bool.and_left_comm]
  · simp [h24]

theorem clampedChan_le (c sh : Nat) (scale : ℚ) : clampedChan c sh scale ≤ 255 := by
  unfold clampedChan
  split
  · exact Nat.le_refl 255
  · rename_i hle
    push_neg at hle
    calc ⌊chanVal c sh scale⌋₊ ≤ ⌊(255 : ℚ)⌋₊ := Nat.floor_le_floor hle
    _ = 255 := by norm_num

/-- C10: for every 32-bit color `c`, every brightness `bri` in `[0, 160)`
from `rand()`, and every triple of nonnegative distances, `ModifyColor`
clamps each shaded channel to at most 255 before packing, preserves the alpha
byte of `c`, and packs without any channel overflowing into a neighboring
byte of the result. -/
theorem modifyColor_spec (c : Nat) (hc : c < 2 ^ 32) (bri : Nat) (hbri : bri < 160)
    (d1 d2 d3 : ℚ) (h1 : 0 ≤ d1) (h2 : 0 ≤ d2) (h3 : 0 ≤ d3) :
    clampedChan c 16 (shadeScale bri d1 d2 d3) ≤ 255 ∧
    clampedChan c 8 (shadeScale bri d1 d2 d3) ≤ 255 ∧
    clampedChan c 0 (shadeScale bri d1 d2 d3) ≤ 255 ∧
    modifyColor c bri d1 d2 d3 < 2 ^ 32 ∧
    modifyColor c bri d1 d2 d3 / 2 ^ 24 = c / 2 ^ 24 ∧
    modifyColor c bri d1 d2 d3 / 2 ^ 16 % 2 ^ 8 =
      clampedChan c 16 (shadeScale bri d1 d2 d3) ∧
    modifyColor c bri d1 d2 d3 / 2 ^ 8 % 2 ^ 8 =
      clampedChan c 8 (shadeScale bri d1 d2 d3) ∧
    modifyColor c bri d1 d2 d3 % 2 ^ 8 =
      clampedChan c 0 (shadeScale bri d1 d2 d3) := by
  have hr := clampedChan_le c 16 (shadeScale bri d1 d2 d3)
  have hg := clampedChan_le c 8 (shadeScale bri d1 d2 d3)
  have hb := clampedChan_le c 0 (shadeScale bri d1 d2 d3)
  have hun : modifyColor c bri d1 d2 d3 =
      c / 2 ^ 24 % 2 ^ 8 * 2 ^ 24 +
        clampedChan c 16 (shadeScale bri d1 d2 d3) * 2 ^ 16 +
        clampedChan c 8 (shadeScale bri d1 d2 d3) * 2 ^ 8 +
        clampedChan c 0 (shadeScale bri d1 d2 d3) := by
    simp only [modifyColor]
    rw [land_alpha_mask, Nat.shiftLeft_eq, Nat.shiftLeft_eq]
  refine ⟨hr, hg, hb, ?_, ?_, ?_, ?_, ?_⟩ <;> rw [hun] <;>
    (try rw [show (2 : Nat) ^ 32 = 4294967296 by norm_num]) <;> omega

/-- Witness for C10 at a concrete color, brightness and distance triple. -/
theorem modifyColor_spec_witness :
    clampedChan 0xff123456 16 (shadeScale 0 1 1 1) ≤ 255 ∧
    clampedChan 0xff123456 8 (shadeScale 0 1 1 1) ≤ 255 ∧
    clampedChan 0xff123456 0 (shadeScale 0 1 1 1) ≤ 255 ∧
    modifyColor 0xff123456 0 1 1 1 < 2 ^ 32 ∧
    modifyColor 0xff123456 0 1 1 1 / 2 ^ 24 = 0xff123456 / 2 ^ 24 ∧
    modifyColor 0xff123456 0 1 1 1 / 2 ^ 16 % 2 ^ 8 =
      clampedChan 0xff123456 16 (shadeScale 0 1 1 1) ∧
    modifyColor 0xff123456 0 1 1 1 / 2 ^ 8 % 2 ^ 8 =
      clampedChan 0xff123456 8 (shadeScale 0 1 1 1) ∧
    modifyColor 0xff123456 0 1 1 1 % 2 ^ 8 =
      clampedChan 0xff123456 0 (shadeScale 0 1 1 1) :=
  modifyColor_spec 0xff123456 (by decide) 0 (by decide) 1 1 1 zero_le_one
    zero_le_one zero_le_one

/-! ## Scene animation lemmas -/

theorem animateCubePos_tail {P R : Type} (models : List (ModelPose P R)) (p : P)
    (i : Nat) (hi : i ≠ 0) : (animateCubePos models p)[i]? = models[i]? := by
  cases models with
  | nil => rfl
  | cons m rest =>
      cases i with
      | zero => exact absurd rfl hi
      | succ i => simp [animateCubePos]

theorem animateCubePos_length {P R : Type} (models : List (ModelPose P R)) (p : P) :
    (animateCubePos models p).length = models.length := by
  cases models <;> simp [animateCubePos]

theorem animateCubePos_head_rot {P R : Type} (models : List (ModelPose P R)) (p : P)
    (m : ModelPose P R) (h : (animateCubePos models p)[0]? = some m) :
    ∃ m0, models[0]? = some m0 ∧ m.Rot = m0.Rot := by
  cases models with
  | nil => simp [animateCubePos] at h
  | cons m0 rest =>
      refine ⟨m0, by simp, ?_⟩
      simp only [animateCubePos, List.getElem?_cons_zero, Option.some.injEq] at h
      rw [← h]

theorem sceneAfter_frame {P R : Type} (models : List (ModelPose P R))
    (cubePos : Nat → P) (n : Nat) :
    (∀ i, i ≠ 0 → (sceneAfter models cubePos n)[i]? = models[i]?) ∧
    (sceneAfter models cubePos n).length = models.length ∧
    (∀ m, (sceneAfter models cubePos n)[0]? = some m →
      ∃ m0, models[0]? = some m0 ∧ m.Rot = m0.Rot) := by
  induction n with
  | zero => exact ⟨fun i _ => rfl, rfl, fun m h => ⟨m, h, rfl⟩⟩
  | succ n ih =>
      rcases ih with ⟨ih1, ih2, ih3⟩
      refine ⟨?_, ?_, ?_⟩
      · intro i hi
        rw [sceneAfter, animateCubePos_tail _ _ i hi, ih1 i hi]
      · rw [sceneAfter, animateCubePos_length, ih2]
      · intro m h
        rw [sceneAfter] at h
        rcases animateCubePos_head_rot _ _ m h with ⟨m1, hm1, hrot⟩
        rcases ih3 m1 hm1 with ⟨m0, hm0, hrot0⟩
        exact ⟨m0, hm0, hrot.trans hrot0⟩

/-- C7: across main-loop iterations, the only pose field of any scene model
that changes is `Models[0].Pos` (the animated cube): every other model keeps
its `Pos` and `Rot`, the cube keeps its `Rot`, the model list keeps its
length, and after iteration `n` the cube's `Pos` is the value computed from
the cube clock in that iteration. -/
theorem scene_static_except_cube {P R : Type} (models : List (ModelPose P R))
    (cubePos : Nat → P) (n : Nat) :
    (∀ i, i ≠ 0 → (sceneAfter models cubePos n)[i]? = models[i]?) ∧
    (sceneAfter models cubePos n).length = models.length ∧
    (∀ m, (sceneAfter models cubePos n)[0]? = some m →
      ∃ m0, models[0]? = some m0 ∧ m.Rot = m0.Rot) ∧
    (∀ k, n = k + 1 → models ≠ [] →
      ∃ m, (sceneAfter models cubePos n)[0]? = some m ∧ m.Pos = cubePos k) := by
  rcases sceneAfter_frame models cubePos n with ⟨h1, h2, h3⟩
  refine ⟨h1, h2, h3, ?_⟩
  intro k hk hne
  subst hk
  rw [sceneAfter]
  cases hs : sceneAfter models cubePos k with
  | nil =>
      have := (sceneAfter_frame models cubePos k).2.1
      rw [hs] at this
      have : models.length = 0 := this.symm
      exact absurd (List.length_eq_zero.mp this) hne
  | cons m0 rest => exact ⟨{ m0 with Pos := cubePos k }, by simp [animateCubePos], rfl⟩

/-- Witness for C7 on a concrete two-model scene over natural-number poses. -/
theorem scene_static_except_cube_witness :
    (sceneAfter [⟨0, 0⟩, ⟨5, 7⟩] (fun k => k + 100) 3)[1]? =
        some (⟨5, 7⟩ : ModelPose Nat Nat) ∧
    (∃ m, (sceneAfter [⟨0, 0⟩, ⟨5, 7⟩] (fun k => k + 100) 3)[0]? = some m ∧
      m.Pos = (fun k => k + 100) 2) :=
  ⟨(scene_static_except_cube [⟨0, 0⟩, ⟨5, 7⟩] (fun k => k + 100) 3).1 1 (by decide),
    (scene_static_except_cube [⟨0, 0⟩, ⟨5, 7⟩] (fun k => k + 100) 3).2.2.2 2 rfl
      (by simp)⟩

/-! ## Render loop lemmas -/

theorem runFrames1_cons_stop (rc : Bool) (s : LoopState) (result : OvrResult)
    (f : FrameEnv) (rest : List FrameEnv) (h : f.running = false) :
    runFrames1 rc s result (f :: rest) =
      ([], Outcome.ret (rc || OVR_SUCCESS result || (result == ovrError_DisplayLost))) := by
  simp [runFrames1, h]

theorem runFrames1_cons_fail (rc : Bool) (s : LoopState) (result : OvrResult)
    (f : FrameEnv) (rest : List FrameEnv) (hr : f.running = true)
    (hf : OVR_SUCCESS f.submitResult = false) :
    runFrames1 rc s result (f :: rest) = ((frameBody s f).1, Outcome.ret rc) := by
  simp [runFrames1, hr, hf]

theorem runFrames1_cons_ok (rc : Bool) (s : LoopState) (result : OvrResult)
    (f : FrameEnv) (rest : List FrameEnv) (hr : f.running = true)
    (hs : OVR_SUCCESS f.submitResult = true) :
    runFrames1 rc s result (f :: rest) =
      ((frameBody s f).1 ++ Ev.renderMirror ::
        (runFrames1 rc { (frameBody s f).2 with isVisible := f.submitResult == ovrSuccess }
          f.submitResult rest).1,
       (runFrames1 rc { (frameBody s f).2 with isVisible := f.submitResult == ovrSuccess }
          f.submitResult rest).2) := by
  simp [runFrames1, hr, hs]

theorem runFrames2_cons_stop (rc : Bool) (s : LoopState) (result : OvrResult)
    (f : FrameEnv) (rest : List FrameEnv) (h : f.running = false) :
    runFrames2 rc s result (f :: rest) =
      ([], Outcome.ret (rc || !f.running || (result == ovrError_DisplayLost))) := by
  simp [runFrames2, h]

theorem runFrames2_cons_fail (rc : Bool) (s : LoopState) (result : OvrResult)
    (f : FrameEnv) (rest : List FrameEnv) (hr : f.running = true)
    (hf : OVR_SUCCESS f.submitResult = false) :
    runFrames2 rc s result (f :: rest) = ((frameBody s f).1, Outcome.ret rc) := by
  simp [runFrames2, hr, hf]

theorem runFrames2_cons_ok (rc : Bool) (s : LoopState) (result : OvrResult)
    (f : FrameEnv) (rest : List FrameEnv) (hr : f.running = true)
    (hs : OVR_SUCCESS f.submitResult = true) :
    runFrames2 rc s result (f :: rest) =
      ((frameBody s f).1 ++ Ev.renderMirror ::
        (runFrames2 rc { (frameBody s f).2 with isVisible := f.submitResult == ovrSuccess }
          f.submitResult rest).1,
       (runFrames2 rc { (frameBody s f).2 with isVisible := f.submitResult == ovrSuccess }
          f.submitResult rest).2) := by
  simp [runFrames2, hr, hs]

theorem lastResult_nil (mr : OvrResult) : lastResult mr [] = mr := rfl

theorem lastResult_cons (mr : OvrResult) (g : FrameEnv) (pre : List FrameEnv) :
    lastResult mr (g :: pre) = lastResult g.submitResult pre := by
  rw [lastResult, lastResult, List.map_cons, List.getLastD_cons]

theorem lastResult_success (pre : List FrameEnv) :
    ∀ mr : OvrResult, OVR_SUCCESS mr = true →
    (∀ g ∈ pre, OVR_SUCCESS g.submitResult = true) →
    OVR_SUCCESS (lastResult mr pre) = true := by
  induction pre with
  | nil => intro mr hm _; rw [lastResult_nil]; exact hm
  | cons g pre ih =>
      intro mr _ h
      rw [lastResult_cons]
      exact ih g.submitResult (h g (List.mem_cons_self g pre))
        (fun x hx => h x (List.mem_cons_of_mem g hx))

theorem runFrames1_skip (rc : Bool) : ∀ pre : List FrameEnv,
    (∀ g ∈ pre, g.running = true ∧ OVR_SUCCESS g.submitResult = true) →
    ∀ (s : LoopState) (result : OvrResult) (tail : List FrameEnv),
    ∃ s2, (runFrames1 rc s result (pre ++ tail)).2 =
      (runFrames1 rc s2 (lastResult result pre) tail).2 := by
  intro pre
  induction pre with
  | nil => intro _ s result tail; exact ⟨s, by rw [List.nil_append, lastResult_nil]⟩
  | cons g pre ih =>
      intro h s result tail
      have hg := h g (List.mem_cons_self g pre)
      have hpre : ∀ x ∈ pre, x.running = true ∧ OVR_SUCCESS x.submitResult = true :=
        fun x hx => h x (List.mem_cons_of_mem g hx)
      rw [List.cons_append, runFrames1_cons_ok rc s result g (pre ++ tail) hg.1 hg.2,
        lastResult_cons]
      exact ih hpre _ g.submitResult tail

theorem runFrames2_skip (rc : Bool) : ∀ pre : List FrameEnv,
    (∀ g ∈ pre, g.running = true ∧ OVR_SUCCESS g.submitResult = true) →
    ∀ (s : LoopState) (result : OvrResult) (tail : List FrameEnv),
    ∃ s2, (runFrames2 rc s result (pre ++ tail)).2 =
      (runFrames2 rc s2 (lastResult result pre) tail).2 := by
  intro pre
  induction pre with
  | nil => intro _ s result tail; exact ⟨s, by rw [List.nil_append, lastResult_nil]⟩
  | cons g pre ih =>
      intro h s result tail
      have hg := h g (List.mem_cons_self g pre)
      have hpre : ∀ x ∈ pre, x.running = true ∧ OVR_SUCCESS x.submitResult = true :=
        fun x hx => h x (List.mem_cons_of_mem g hx)
      rw [List.cons_append, runFrames2_cons_ok rc s result g (pre ++ tail) hg.1 hg.2,
        lastResult_cons]
      exact ih hpre _ g.submitResult tail

theorem MainLoop1_valid (rc : Bool) (env : MainLoopEnv) (hv : envValid env) :
    MainLoop1 rc env = runFrames1 rc (initLoopState env) env.mirrorResult env.frames := by
  rcases hv with ⟨h1, h2, h3, h4, h5, h6, h7, h8⟩
  simp [MainLoop1, h1, h2, h3, h4, h5, h6, h7, h8]

theorem MainLoop2_valid (rc : Bool) (env : MainLoopEnv) (hv : envValid env) :
    MainLoop2 rc env = runFrames2 rc (initLoopState env) env.mirrorResult env.frames := by
  rcases hv with ⟨h1, h2, h3, h4, h5, h6, h7, h8⟩
  simp [MainLoop2, h1, h2, h3, h4, h5, h6, h7, h8]

/-- C1: both revisions' `MainLoop`s recover from failure only through the
`retryCreate` boolean: an `ovr_Create` failure returns `retryCreate`; an
`ovr_SubmitFrame` failure during the loop returns `retryCreate`; and on a
normal loop exit the return value is `true` exactly when `retryCreate` is
true, the last submit result was a success, or that result was
`ovrError_DisplayLost` (on such exits the middle disjunct in fact always
holds, since a failing submit would have returned earlier). -/
theorem mainLoop_retry_semantics (rc : Bool) (env : MainLoopEnv) :
    (OVR_SUCCESS env.createResult = false →
      (MainLoop1 rc env).2 = Outcome.ret rc ∧ (MainLoop2 rc env).2 = Outcome.ret rc) ∧
    (∀ pre f rest, envValid env → env.frames = pre ++ f :: rest →
      (∀ g ∈ pre, g.running = true ∧ OVR_SUCCESS g.submitResult = true) →
      f.running = true → OVR_SUCCESS f.submitResult = false →
      (MainLoop1 rc env).2 = Outcome.ret rc ∧ (MainLoop2 rc env).2 = Outcome.ret rc) ∧
    (∀ pre f rest, envValid env → env.frames = pre ++ f :: rest →
      (∀ g ∈ pre, g.running = true ∧ OVR_SUCCESS g.submitResult = true) →
      f.running = false →
      (((MainLoop1 rc env).2 = Outcome.ret true ↔
        (rc = true ∨ OVR_SUCCESS (lastResult env.mirrorResult pre) = true ∨
          lastResult env.mirrorResult pre = ovrError_DisplayLost)) ∧
       ((MainLoop2 rc env).2 = Outcome.ret true ↔
        (rc = true ∨ OVR_SUCCESS (lastResult env.mirrorResult pre) = true ∨
          lastResult env.mirrorResult pre = ovrError_DisplayLost)))) := by
  refine ⟨?_, ?_, ?_⟩
  · intro h
    constructor <;> simp [MainLoop1, MainLoop2, h]
  · intro pre f rest hv hfr hpre hrun hfail
    rw [MainLoop1_valid rc env hv, MainLoop2_valid rc env hv, hfr]
    constructor
    · rcases runFrames1_skip rc pre hpre (initLoopState env) env.mirrorResult
        (f :: rest) with ⟨s2, h2⟩
      rw [h2, runFrames1_cons_fail rc s2 _ f rest hrun hfail]
    · rcases runFrames2_skip rc pre hpre (initLoopState env) env.mirrorResult
        (f :: rest) with ⟨s2, h2⟩
      rw [h2, runFrames2_cons_fail rc s2 _ f rest hrun hfail]
  · intro pre f rest hv hfr hpre hstop
    have hsucc : OVR_SUCCESS (lastResult env.mirrorResult pre) = true :=
      lastResult_success pre env.mirrorResult hv.2.2.2.2.2.2.2
        (fun g hg => (hpre g hg).2)
    rw [MainLoop1_valid rc env hv, MainLoop2_valid rc env hv, hfr]
    constructor
    · rcases runFrames1_skip rc pre hpre (initLoopState env) env.mirrorResult
        (f :: rest) with ⟨s2, h2⟩
      rw [h2, runFrames1_cons_stop rc s2 _ f rest hstop]
      simp [hsucc]
    · rcases runFrames2_skip rc pre hpre (initLoopState env) env.mirrorResult
        (f :: rest) with ⟨s2, h2⟩
      rw [h2, runFrames2_cons_stop rc s2 _ f rest hstop]
      simp [hstop, hsucc]

/-- Witness for C1 on three concrete traces: a failed `ovr_Create`, a
`DisplayLost` submit failure, and a normal loop exit. -/
theorem mainLoop_retry_semantics_witness :
    ((MainLoop1 false
        ⟨-6000, false, 0, 0, 0, 2, 2, 0, 0, 0, []⟩).2 = Outcome.ret false ∧
      (MainLoop2 false
        ⟨-6000, false, 0, 0, 0, 2, 2, 0, 0, 0, []⟩).2 = Outcome.ret false) ∧
    ((MainLoop1 true
        ⟨0, true, 0, 0, 0, 2, 2, 0, 0, 0, [⟨true, -6000⟩]⟩).2 = Outcome.ret true ∧
      (MainLoop2 true
        ⟨0, true, 0, 0, 0, 2, 2, 0, 0, 0, [⟨true, -6000⟩]⟩).2 = Outcome.ret true) ∧
    ((MainLoop1 false
        ⟨0, true, 0, 0, 0, 2, 2, 0, 0, 0, [⟨false, 0⟩]⟩).2 = Outcome.ret true ↔
      (false = true ∨ OVR_SUCCESS (lastResult 0 []) = true ∨
        lastResult 0 [] = ovrError_DisplayLost)) :=
  ⟨(mainLoop_retry_semantics false ⟨-6000, false, 0, 0, 0, 2, 2, 0, 0, 0, []⟩).1
      (by decide),
    (mainLoop_retry_semantics true
        ⟨0, true, 0, 0, 0, 2, 2, 0, 0, 0, [⟨true, -6000⟩]⟩).2.1
      [] ⟨true, -6000⟩ [] (by decide) rfl (by simp) rfl (by decide),
    ((mainLoop_retry_semantics false
        ⟨0, true, 0, 0, 0, 2, 2, 0, 0, 0, [⟨false, 0⟩]⟩).2.2
      [] ⟨false, 0⟩ [] (by decide) rfl (by simp) rfl).1⟩

theorem renderMirror_not_in_body (s : LoopState) (f : FrameEnv) :
    Ev.renderMirror ∉ (frameBody s f).1 := by
  cases hv : s.isVisible <;> simp [frameBody, renderEyes, hv]

/-- C2: each render-loop iteration performs, in order: poll input and update
the camera, animate the cube, compute the eye poses, render the eye buffers
(only when visible), submit the frame, and then copy-and-present the mirror;
the mirror step occurs in the iteration's events exactly when the submit
succeeded, a failed submit returning `retryCreate` with no mirror present. -/
theorem renderLoop_step_order (rc : Bool) (s : LoopState) (result : OvrResult)
    (f : FrameEnv) (rest : List FrameEnv) (hrun : f.running = true) :
    ((frameBody s f).1 =
      [Ev.pollInput, Ev.animateCube, Ev.computePoses] ++
        (if s.isVisible then (renderEyes s).1 else []) ++
        [Ev.submitFrame f.submitResult]) ∧
    (Ev.renderMirror ∈ iterEvents s f ↔ OVR_SUCCESS f.submitResult = true) ∧
    (∃ tailEvs, (runFrames1 rc s result (f :: rest)).1 = iterEvents s f ++ tailEvs) ∧
    (OVR_SUCCESS f.submitResult = false →
      runFrames1 rc s result (f :: rest) = (iterEvents s f, Outcome.ret rc) ∧
      Ev.renderMirror ∉ (runFrames1 rc s result (f :: rest)).1) ∧
    (OVR_SUCCESS f.submitResult = true →
      runFrames1 rc s result (f :: rest) =
        ((frameBody s f).1 ++ Ev.renderMirror ::
          (runFrames1 rc
            { (frameBody s f).2 with isVisible := f.submitResult == ovrSuccess }
            f.submitResult rest).1,
         (runFrames1 rc
            { (frameBody s f).2 with isVisible := f.submitResult == ovrSuccess }
            f.submitResult rest).2)) := by
  refine ⟨?_, ?_, ?_, ?_, ?_⟩
  · cases hv : s.isVisible <;> simp [frameBody, hv]
  · rw [iterEvents]
    cases hsucc : OVR_SUCCESS f.submitResult <;>
      simp [hsucc, renderMirror_not_in_body s f]
  · cases hsucc : OVR_SUCCESS f.submitResult
    · exact ⟨[], by
        rw [runFrames1_cons_fail rc s result f rest hrun hsucc, iterEvents, hsucc]
        simp⟩
    · exact ⟨(runFrames1 rc
          { (frameBody s f).2 with isVisible := f.submitResult == ovrSuccess }
          f.submitResult rest).1, by
        rw [runFrames1_cons_ok rc s result f rest hrun hsucc, iterEvents, hsucc]
        simp⟩
  · intro hfail
    constructor
    · rw [runFrames1_cons_fail rc s result f rest hrun hfail, iterEvents, hfail]
      simp
    · rw [runFrames1_cons_fail rc s result f rest hrun hfail]
      exact renderMirror_not_in_body s f
  · intro hsucc
    exact runFrames1_cons_ok rc s result f rest hrun hsucc

/-- Witness for C2 at a concrete visible iteration with a successful submit. -/
theorem renderLoop_step_order_witness :
    (Ev.renderMirror ∈ iterEvents ⟨true, ⟨0, 2⟩, ⟨0, 2⟩⟩ ⟨true, 0⟩ ↔
      OVR_SUCCESS (⟨true, 0⟩ : FrameEnv).submitResult = true) ∧
    (∃ tailEvs, (runFrames1 false ⟨true, ⟨0, 2⟩, ⟨0, 2⟩⟩ 0 [⟨true, 0⟩]).1 =
      iterEvents ⟨true, ⟨0, 2⟩, ⟨0, 2⟩⟩ ⟨true, 0⟩ ++ tailEvs) :=
  ⟨(renderLoop_step_order false ⟨true, ⟨0, 2⟩, ⟨0, 2⟩⟩ 0 ⟨true, 0⟩ [] rfl).2.1,
    (renderLoop_step_order false ⟨true, ⟨0, 2⟩, ⟨0, 2⟩⟩ 0 ⟨true, 0⟩ [] rfl).2.2.1⟩

/-- C3: in a visible frame the room scene is rendered exactly twice — one
per-eye pass for the left eye then one for the right — and each pass uses its
own eye's swap texture set, depth buffer, and viewport, with the advanced
`TexRtv` index in bounds for the validated `TextureCount` of 2. -/
theorem eyeRender_passes_spec (s : LoopState) (f : FrameEnv)
    (hvis : s.isVisible = true) (hL : s.eyeTexL.TextureCount = 2)
    (hR : s.eyeTexR.TextureCount = 2) :
    ((frameBody s f).1 =
      [Ev.pollInput, Ev.animateCube, Ev.computePoses] ++ (renderEyes s).1 ++
        [Ev.submitFrame f.submitResult]) ∧
    ((renderEyes s).1 =
      [Ev.eyeRenderPass 0 0 ((s.eyeTexL.CurrentIndex + 1) % 2) 0 0,
       Ev.eyeRenderPass 1 1 ((s.eyeTexR.CurrentIndex + 1) % 2) 1 1]) ∧
    ((renderEyes s).1.length = 2) ∧
    (∀ e ∈ (renderEyes s).1, ∀ eye texSet rtv db vp,
      e = Ev.eyeRenderPass eye texSet rtv db vp →
      texSet = eye ∧ db = eye ∧ vp = eye ∧ rtv < 2 ∧ eye < 2) := by
  have heyes : (renderEyes s).1 =
      [Ev.eyeRenderPass 0 0 ((s.eyeTexL.CurrentIndex + 1) % 2) 0 0,
       Ev.eyeRenderPass 1 1 ((s.eyeTexR.CurrentIndex + 1) % 2) 1 1] := by
    simp [renderEyes, AdvanceToNextTexture, hL, hR]
  refine ⟨by simp [frameBody, hvis], heyes, by rw [heyes]; rfl, ?_⟩
  intro e he eye texSet rtv db vp hEq
  rw [heyes] at he
  simp only [List.mem_cons, List.not_mem_nil, or_false] at he
  rcases he with h | h <;> rw [hEq] at h <;>
    simp only [Ev.eyeRenderPass.injEq] at h <;>
    rcases h with ⟨h1, h2, h3, h4, h5⟩ <;>
    subst h1 <;> subst h2 <;> subst h3 <;> subst h4 <;> subst h5 <;>
    exact ⟨rfl, rfl, rfl, Nat.mod_lt _ (by omega), by omega⟩

/-- Witness for C3 at a concrete visible loop state. -/
theorem eyeRender_passes_spec_witness :
    ((renderEyes ⟨true, ⟨0, 2⟩, ⟨1, 2⟩⟩).1 =
      [Ev.eyeRenderPass 0 0 ((0 + 1) % 2) 0 0,
       Ev.eyeRenderPass 1 1 ((1 + 1) % 2) 1 1]) ∧
    (renderEyes ⟨true, ⟨0, 2⟩, ⟨1, 2⟩⟩).1.length = 2 :=
  ⟨(eyeRender_passes_spec ⟨true, ⟨0, 2⟩, ⟨1, 2⟩⟩ ⟨true, 0⟩ rfl rfl rfl).2.1,
    (eyeRender_passes_spec ⟨true, ⟨0, 2⟩, ⟨1, 2⟩⟩ ⟨true, 0⟩ rfl rfl rfl).2.2.1⟩

end OculusRoomTiny
